import Mathlib

/-
Verification of the MORSE armature-pose sensor
(src/src/morse/sensors/armature_pose.py).

Shallow embedding notes:

* Python float values are modelled as rationals: every operation on the
  joint-value path (get_joint, get_state, default_action) only moves values
  around (indexing, no arithmetic), so the choice of number representation
  does not affect the properties proved here.  The one arithmetic path,
  get_joints_length, models math.sqrt with Rat.sqrt; no claim depends on
  the numeric result of a length.
* Python exceptions are modelled by the Err type carried in Except; a raised
  exception propagates out of the call, and mutations done before the raise
  persist (methods return the possibly-updated Sensor alongside the result).
* The DOF declarations held by the armature actuator are lists of 0/1
  integers in the original system; only their truth is ever consulted
  (`== 1`), so they are modelled as booleans.
* The armature actuator itself (morse/actuators/armature.py) and the base
  Sensor class are collaborators whose code is not part of this repository;
  they are modelled from the spec where marked.
-/

namespace Morse

/-- Kind of a joint: revolute (rotational) or prismatic. -/
inductive JointKind where
  | rotational
  | prismatic
deriving DecidableEq, Repr

/-- A 3-vector of scalars (joint rotations in radians, or positions in
meters), indexed 0/1/2 for the local X/Y/Z axes. -/
structure Vec3 where
  x : ℚ
  y : ℚ
  z : ℚ
deriving DecidableEq, Repr

/-- Python-style indexing `v[i]` into a 3-vector. -/
def Vec3.get (v : Vec3) : Nat → ℚ
  | 0 => v.x
  | 1 => v.y
  | _ => v.z

/-- The 3-boolean DOF mask of a joint: which local axis is free to move.
The original stores 0/1 integers; only truth (`== 1`) is consulted. -/
structure DofMask where
  x : Bool
  y : Bool
  z : Bool
deriving DecidableEq, Repr

/-- Python-style indexing `mask[i]` into a DOF mask. -/
def DofMask.get (m : DofMask) : Nat → Bool
  | 0 => m.x
  | 1 => m.y
  | _ => m.z

/-- One channel (joint/bone) of an armature, with its name, kind, and the
pose accessors used by the sensor: `joint_rotation` (per-axis rotation,
radians), `head_pose` (head position, meters), and the `pose_head` /
`pose_tail` reference points used for bone lengths. -/
structure Channel where
  name : String
  kind : JointKind
  joint_rotation : Vec3
  head_pose : Vec3
  pose_head : Vec3
  pose_tail : Vec3
deriving DecidableEq, Repr

/-- A Blender scene object, as seen by the sensor: a name, optionally a
`channels` attribute (present exactly on armature objects; `hasattr(obj,
"channels")` is `Option.isSome`), and optionally a parent link.  The
inductive structure makes every parent chain finite and acyclic, which is
the host's guarantee for the scene hierarchy. -/
inductive BObj where
  | mk (name : String) (channels : Option (List Channel)) (parent : Option BObj)

def BObj.name : BObj → String
  | .mk n _ _ => n

def BObj.channels : BObj → Option (List Channel)
  | .mk _ c _ => c

def BObj.parent : BObj → Option BObj
  | .mk _ _ p => p

/-- The list of channels of an object that exposes them; an object found by
the upward armature search always does (`hasattr` was checked). -/
def BObj.channelsList (o : BObj) : List Channel :=
  o.channels.getD []

/-- The object itself followed by its proper ancestors, nearest first. -/
def BObj.ancestorList : BObj → List BObj
  | .mk n c none => [.mk n c none]
  | .mk n c (some p) => .mk n c (some p) :: ancestorList p

/-- The armature the sensor holds a reference to: the name and channel list
of the scene object found by the upward search (the only two attributes the
sensor ever reads from it). -/
structure Armature where
  name : String
  channels : List Channel
deriving DecidableEq, Repr

/-- Failure outcomes.  The first three model the Python exceptions that the
source code actually raises (attribute access on None or on a missing
attribute, a missing dict key, an exhausted `next(...)` generator); the
`unknownJoint` constructor models the documented failure of the actuator's
helper for a joint name absent from the chain.  The last four constructors
are the spec's error taxonomy (NotReady, NoActiveAxis, MultipleActiveAxes,
NotAttached); they exist so that the spec's claims about them can be stated,
and are never produced by the embedded code. -/
inductive Err where
  | attributeError (attr : String)
  | keyError (key : String)
  | stopIteration
  | unknownJoint (name : String)
  | notReady
  | noActiveAxis
  | multipleActiveAxes
  | notAttached
deriving DecidableEq, Repr

/-- Python dict assignment `d[k] = v` on an insertion-ordered dict seen as
an association list: an existing key keeps its position and gets the new
value, a new key is appended at the end. -/
def updateEntry (ld : List (String × ℚ)) (k : String) (v : ℚ) :
    List (String × ℚ) :=
  match ld with
  | [] => [(k, v)]
  | (k₀, v₀) :: rest =>
      if k₀ == k then (k, v) :: rest else (k₀, v₀) :: updateEntry rest k v

/-- Modelled from the spec: the DOF Declaration Source (the armature
actuator, morse/actuators/armature.py, not part of this repository) owns,
per joint name, the 3-boolean axis mask (`_dofs`), and is built over the
same armature as the sensor. -/
structure ArmatureActuator where
  armature : Armature
  dofs : List (String × DofMask)
deriving DecidableEq, Repr

/-- Modelled from the spec: the actuator helper `_get_joint(joint)` reused by
the sensor returns the named channel together with whether it is prismatic,
and fails (UnknownJoint) "if the named joint is absent from the chain". -/
def ArmatureActuator.getJointHelper (act : ArmatureActuator)
    (joint : String) : Except Err (Channel × Bool) :=
  match act.armature.channels.find? (fun c => c.name == joint) with
  | none => .error (.unknownJoint joint)
  | some c => .ok (c, c.kind == .prismatic)

/-- Modelled from the spec: the actuator helper `find_dof(channel)` exposes
`dofMask(jointName) -> 3-bool`, the mask stored per joint name; a name
missing from the declarations fails like the dict lookup it is. -/
def ArmatureActuator.find_dof (act : ArmatureActuator) (ch : Channel) :
    Except Err DofMask :=
  match act.dofs.lookup ch.name with
  | none => .error (.keyError ch.name)
  | some m => .ok m

/-- The process-wide registry of components keyed by owning-body name
(`blenderapi.persistantstorage().componentDict`), restricted to the armature
actuators the sensor looks up in it. -/
abbrev ComponentDict := List (String × ArmatureActuator)

/-- `ArmaturePose._get_armature(obj)`: walk upward through parent links and
return the first object (the body itself included) exposing `channels`, or
None when the walk reaches the top without finding one. -/
def get_armature : BObj → Option BObj
  | .mk n c none => if c.isSome then some (.mk n c none) else none
  | .mk n c (some p) =>
      if c.isSome then some (.mk n c (some p)) else get_armature p

/-- The mutable state of an ArmaturePose sensor instance: the armature
reference (None when the upward search failed), the cached armature-actuator
reference (None both while unbound and — since the distinction is
unobservable beyond the AttributeError message — when the attribute was
never set because the constructor returned early), and the published
`local_data` mapping. -/
structure Sensor where
  armature : Option Armature
  armature_actuator : Option ArmatureActuator
  local_data : List (String × ℚ)
deriving DecidableEq, Repr

/-- `ArmaturePose.__init__`: resolve the armature by the upward search; on
failure log and return early, leaving `local_data` as the base Sensor class
created it (modelled from the spec: "the Joint State Mapping is created
empty at Sensor construction") and `_armature_actuator` unset; on success
set `_armature_actuator` to None and create one `local_data` entry per
channel, initialised to 0.0. -/
def ArmaturePose.init (obj : BObj) : Sensor :=
  match get_armature obj with
  | none =>
      { armature := none, armature_actuator := none, local_data := [] }
  | some a =>
      { armature := some { name := a.name, channels := a.channelsList },
        armature_actuator := none,
        local_data :=
          a.channelsList.foldl (fun ld c => updateEntry ld c.name 0) [] }

/-- `ArmaturePose._get_armature_actuator`: if the armature is set and its
name is registered in the component dict, cache that component as the
armature actuator; otherwise leave the cache as it is. -/
def Sensor.get_armature_actuator (s : Sensor)
    (component_dict : ComponentDict) : Sensor :=
  match s.armature with
  | some arm =>
      match component_dict.lookup arm.name with
      | some act => { s with armature_actuator := some act }
      | none => s
  | none => s

/-- `next(i for i, j in enumerate(mask) if j)`: the index of the first true
entry of the mask, or None (StopIteration) when there is none. -/
def firstTrueIndex (m : DofMask) : Option Nat :=
  if m.x then some 0 else if m.y then some 1 else if m.z then some 2 else none

/-- The list of indices at which the mask is true (used to state claims
about masks with exactly one, zero, or several active axes). -/
def trueIndices (m : DofMask) : List Nat :=
  (if m.x then [0] else []) ++ (if m.y then [1] else []) ++
    (if m.z then [2] else [])

/-- `ArmaturePose.get_joint(joint)`: re-attempt the lazy actuator binding if
unbound, then resolve the named joint through the actuator's helpers and
return the head-position component (prismatic) or the rotation component
(revolute) at the first active axis of the joint's DOF mask.  Calling the
helpers on a still-unbound (None) actuator raises AttributeError. -/
def Sensor.get_joint (s : Sensor) (component_dict : ComponentDict)
    (joint : String) : Except Err ℚ × Sensor :=
  let s := if s.armature_actuator.isNone
           then s.get_armature_actuator component_dict else s
  match s.armature_actuator with
  | none => (.error (.attributeError "_get_joint"), s)
  | some act =>
      match act.getJointHelper joint with
      | .error e => (.error e, s)
      | .ok (channel, is_prismatic) =>
          match act.find_dof channel with
          | .error e => (.error e, s)
          | .ok mask =>
              match firstTrueIndex mask with
              | none => (.error .stopIteration, s)
              | some axis_index =>
                  if is_prismatic then
                    (.ok (channel.head_pose.get axis_index), s)
                  else
                    (.ok (channel.joint_rotation.get axis_index), s)

/-- The loop of `get_state`: build the fresh `joints` dict by calling
`get_joint` for each channel in chain order; the first exception propagates
and the partial dict (a local) is discarded, while sensor mutations made by
the calls so far (the lazy binding) persist. -/
def Sensor.getStateLoop (s : Sensor) (component_dict : ComponentDict) :
    List Channel → List (String × ℚ) → Except Err (List (String × ℚ)) × Sensor
  | [], joints => (.ok joints, s)
  | channel :: rest, joints =>
      match s.get_joint component_dict channel.name with
      | (.error e, s₁) => (.error e, s₁)
      | (.ok v, s₁) =>
          s₁.getStateLoop component_dict rest (updateEntry joints channel.name v)

/-- `ArmaturePose.get_state`: a fresh dict with one `get_joint` result per
channel of the armature; iterating the channels of a None armature raises
AttributeError. -/
def Sensor.get_state (s : Sensor) (component_dict : ComponentDict) :
    Except Err (List (String × ℚ)) × Sensor :=
  match s.armature with
  | none => (.error (.attributeError "channels"), s)
  | some arm => s.getStateLoop component_dict arm.channels []

/-- `ArmaturePose.get_joints`: the ordered channel names; iterating the
channels of a None armature raises AttributeError.  The method reads but
never writes the sensor, so the state comes back unchanged. -/
def Sensor.get_joints (s : Sensor) : Except Err (List String) × Sensor :=
  match s.armature with
  | none => (.error (.attributeError "channels"), s)
  | some arm => (.ok (arm.channels.map (fun c => c.name)), s)

/-- `ArmaturePose.get_joints_length`: per channel, the Euclidean distance
between `pose_head` and `pose_tail` (math.sqrt modelled by Rat.sqrt), built
into a dict in chain order; a None armature raises AttributeError.  Reads
only, so the state comes back unchanged. -/
def Sensor.get_joints_length (s : Sensor) :
    Except Err (List (String × ℚ)) × Sensor :=
  match s.armature with
  | none => (.error (.attributeError "channels"), s)
  | some arm =>
      (.ok (arm.channels.foldl (fun ld c =>
          let dx := c.pose_head.x - c.pose_tail.x
          let dy := c.pose_head.y - c.pose_tail.y
          let dz := c.pose_head.z - c.pose_tail.z
          updateEntry ld c.name (Rat.sqrt (dx ^ 2 + dy ^ 2 + dz ^ 2))) []), s)

/-- The loop of `default_action`: for each channel, read the actuator's
`_dofs` entry for the channel name (AttributeError on a None actuator,
KeyError on a missing name) and, when axis 1 (Y) or else axis 2 (Z) is
active, overwrite the channel's `local_data` entry with the corresponding
component of `joint_rotation`; other channels are left untouched.  On an
exception the writes made so far persist. -/
def defaultActionLoop (act? : Option ArmatureActuator) :
    List Channel → List (String × ℚ) → Except Err Unit × List (String × ℚ)
  | [], ld => (.ok (), ld)
  | channel :: rest, ld =>
      match act? with
      | none => (.error (.attributeError "_dofs"), ld)
      | some act =>
          match act.dofs.lookup channel.name with
          | none => (.error (.keyError channel.name), ld)
          | some mask =>
              let segment_angle := channel.joint_rotation
              let ld₁ :=
                if mask.get 1 then
                  updateEntry ld channel.name (segment_angle.get 1)
                else if mask.get 2 then
                  updateEntry ld channel.name (segment_angle.get 2)
                else ld
              defaultActionLoop act? rest ld₁

/-- `ArmaturePose.default_action` (the per-tick update): return immediately
when the armature is None; otherwise re-attempt the lazy actuator binding if
unbound, then run the per-channel update loop over `local_data`. -/
def Sensor.default_action (s : Sensor) (component_dict : ComponentDict) :
    Except Err Unit × Sensor :=
  match s.armature with
  | none => (.ok (), s)
  | some arm =>
      let s₁ := if s.armature_actuator.isNone
                then s.get_armature_actuator component_dict else s
      match defaultActionLoop s₁.armature_actuator arm.channels s₁.local_data with
      | (r, ld) => (r, { s₁ with local_data := ld })

/-
Concrete scenarios used by witnesses and counterexamples.
-/

/-- Joint A of the end-to-end scenario of the spec: rotational, Y axis
active, rotation (0, 0.7, 0). -/
def chanA : Channel :=
  { name := "A", kind := .rotational,
    joint_rotation := ⟨0, 0.7, 0⟩, head_pose := ⟨0, 0, 0⟩,
    pose_head := ⟨0, 0, 0⟩, pose_tail := ⟨0, 0, 3⟩ }

/-- Joint B of the end-to-end scenario of the spec: prismatic, Z axis
active, head position (0, 0, 1.5). -/
def chanB : Channel :=
  { name := "B", kind := .prismatic,
    joint_rotation := ⟨0, 0, 0⟩, head_pose := ⟨0, 0, 1.5⟩,
    pose_head := ⟨0, 0, 0⟩, pose_tail := ⟨0, 0, 0⟩ }

/-- The 2-joint chain of the end-to-end scenario. -/
def armAB : Armature := { name := "arm", channels := [chanA, chanB] }

/-- The DOF source of the end-to-end scenario: A free about Y, B free
along Z. -/
def actAB : ArmatureActuator :=
  { armature := armAB,
    dofs := [("A", ⟨false, true, false⟩), ("B", ⟨false, false, true⟩)] }

/-- A component registry in which the chain's actuator is registered. -/
def cdAB : ComponentDict := [("arm", actAB)]

/-- The scene object carrying the 2-joint chain (the sensor's direct
parent already exposes the channels). -/
def objAB : BObj := .mk "arm" (some [chanA, chanB]) none

/-- The sensor of the end-to-end scenario, freshly constructed on the
2-joint chain (actuator not yet bound, per-joint entries at 0). -/
def sensorAB : Sensor := ArmaturePose.init objAB

/-- A joint with a malformed DOF mask: two active axes (X and Y). -/
def chanM : Channel :=
  { name := "M", kind := .rotational,
    joint_rotation := ⟨1, 2, 3⟩, head_pose := ⟨4, 5, 6⟩,
    pose_head := ⟨0, 0, 0⟩, pose_tail := ⟨0, 0, 0⟩ }

def armM : Armature := { name := "armM", channels := [chanM] }

def actM : ArmatureActuator :=
  { armature := armM, dofs := [("M", ⟨true, true, false⟩)] }

/-- A sensor on the one-joint chain of `chanM`, with the actuator already
bound. -/
def sensorM : Sensor :=
  { armature := some armM, armature_actuator := some actM,
    local_data := [("M", 0)] }

/-- A joint with a malformed DOF mask: no active axis at all. -/
def chanZ : Channel :=
  { name := "Z", kind := .rotational,
    joint_rotation := ⟨1, 2, 3⟩, head_pose := ⟨4, 5, 6⟩,
    pose_head := ⟨0, 0, 0⟩, pose_tail := ⟨0, 0, 0⟩ }

def armZ : Armature := { name := "armZ", channels := [chanZ] }

def actZ : ArmatureActuator :=
  { armature := armZ, dofs := [("Z", ⟨false, false, false⟩)] }

def sensorZ : Sensor :=
  { armature := some armZ, armature_actuator := some actZ,
    local_data := [("Z", 0)] }

/-- The spec's prismatic point example: mask [false, true, false], head
position (1.0, 2.5, -3.0). -/
def chanP : Channel :=
  { name := "P", kind := .prismatic,
    joint_rotation := ⟨0, 0, 0⟩, head_pose := ⟨1, 2.5, -3⟩,
    pose_head := ⟨0, 0, 0⟩, pose_tail := ⟨0, 0, 0⟩ }

def armP : Armature := { name := "armP", channels := [chanP] }

def actP : ArmatureActuator :=
  { armature := armP, dofs := [("P", ⟨false, true, false⟩)] }

def sensorP : Sensor :=
  { armature := some armP, armature_actuator := some actP,
    local_data := [("P", 0)] }

/-- A scene object with no armature anywhere up its parent chain. -/
def objNoArm : BObj := .mk "body" none (some (.mk "robot" none none))

/-- A sensor constructed on a body that is not attached to any chain. -/
def sensorNoArm : Sensor := ArmaturePose.init objNoArm


/-- A joint whose DOF declaration is missing from the actuator's table. -/
def chanW : Channel :=
  { name := "W", kind := .rotational,
    joint_rotation := ⟨0, 0, 0⟩, head_pose := ⟨0, 0, 0⟩,
    pose_head := ⟨0, 0, 0⟩, pose_tail := ⟨0, 0, 0⟩ }

/-- A chain whose second joint has no DOF declaration. -/
def armW : Armature := { name := "armW", channels := [chanA, chanW] }

def actW : ArmatureActuator :=
  { armature := armW, dofs := [("A", ⟨false, true, false⟩)] }

/-- A bound sensor on the chain of `armW`: resolving joint A succeeds and
resolving joint W fails with a KeyError. -/
def sensorW : Sensor :=
  { armature := some armW, armature_actuator := some actW,
    local_data := [("A", 0), ("W", 0)] }

/-
Helper lemmas.
-/

theorem firstTrueIndex_eq_head (m : DofMask) :
    firstTrueIndex m = (trueIndices m).head? := by
  rcases m with ⟨x, y, z⟩
  cases x <;> cases y <;> cases z <;> rfl

theorem get_armature_actuator_local_data (s : Sensor) (cd : ComponentDict) :
    (s.get_armature_actuator cd).local_data = s.local_data := by
  unfold Sensor.get_armature_actuator
  split
  · split <;> rfl
  · rfl

theorem get_joint_snd_of_bound (s : Sensor) (cd : ComponentDict) (j : String)
    (act : ArmatureActuator) (hb : s.armature_actuator = some act) :
    (s.get_joint cd j).2 = s := by
  simp only [Sensor.get_joint, hb, Option.isNone_some, Bool.false_eq_true,
    if_false]
  split
  · rfl
  · split
    · rfl
    · split
      · rfl
      · split <;> rfl

theorem get_joint_fst_of_bound (s : Sensor) (cd : ComponentDict) (j : String)
    (act : ArmatureActuator) (ch : Channel) (p : Bool) (mask : DofMask)
    (hb : s.armature_actuator = some act)
    (hj : act.getJointHelper j = .ok (ch, p))
    (hm : act.find_dof ch = .ok mask) :
    (s.get_joint cd j).1 =
      (match firstTrueIndex mask with
       | none => .error .stopIteration
       | some i =>
           .ok (if p then ch.head_pose.get i else ch.joint_rotation.get i)) := by
  simp only [Sensor.get_joint, hb, Option.isNone_some, Bool.false_eq_true,
    if_false, hj, hm]
  split
  · rfl
  · split <;> rfl

theorem get_joint_snd (s : Sensor) (cd : ComponentDict) (j : String) :
    (s.get_joint cd j).2 =
      (if s.armature_actuator.isNone then s.get_armature_actuator cd else s) := by
  simp only [Sensor.get_joint]
  generalize (if s.armature_actuator.isNone then s.get_armature_actuator cd else s) = t
  split
  · rfl
  · split
    · rfl
    · split
      · rfl
      · split
        · rfl
        · split <;> rfl

theorem get_joint_local_data (s : Sensor) (cd : ComponentDict) (j : String) :
    (s.get_joint cd j).2.local_data = s.local_data := by
  rw [get_joint_snd]
  by_cases hb : s.armature_actuator.isNone <;>
    simp [hb, get_armature_actuator_local_data]

theorem lookup_updateEntry_self (ld : List (String × ℚ)) (k : String) (v : ℚ) :
    (updateEntry ld k v).lookup k = some v := by
  induction ld with
  | nil => simp [updateEntry, List.lookup]
  | cons hd tl ih =>
    rcases hd with ⟨k₀, v₀⟩
    by_cases h : k₀ = k
    · simp [updateEntry, h, List.lookup]
    · simp only [updateEntry, beq_iff_eq, h, if_false, List.lookup]
      have : (k == k₀) = false := by
        simp [beq_iff_eq]
        exact fun he => h he.symm
      simp [this, ih]

theorem lookup_updateEntry_isSome (ld : List (String × ℚ)) (k k₁ : String)
    (v : ℚ) (h : (ld.lookup k₁).isSome) :
    ((updateEntry ld k v).lookup k₁).isSome := by
  induction ld with
  | nil => simp [List.lookup] at h
  | cons hd tl ih =>
    rcases hd with ⟨k₀, v₀⟩
    by_cases hk : k₀ = k
    · subst hk
      by_cases hk₁ : k₁ = k₀
      · simp [updateEntry, List.lookup, hk₁]
      · have hne : (k₁ == k₀) = false := by simp [beq_iff_eq, hk₁]
        simp only [List.lookup, hne] at h
        simp [updateEntry, List.lookup, hne, h]
    · have hne : (k₀ == k) = false := by simp [beq_iff_eq, hk]
      by_cases hk₁ : k₁ = k₀
      · simp [updateEntry, hne, List.lookup, hk₁]
      · have hne₁ : (k₁ == k₀) = false := by simp [beq_iff_eq, hk₁]
        simp only [List.lookup, hne₁] at h
        simp only [updateEntry, hne, if_false, List.lookup, hne₁]
        exact ih h

theorem getStateLoop_cons (s : Sensor) (cd : ComponentDict) (ch : Channel)
    (rest : List Channel) (acc : List (String × ℚ)) :
    s.getStateLoop cd (ch :: rest) acc =
      (match s.get_joint cd ch.name with
       | (.error e, s₁) => (.error e, s₁)
       | (.ok v, s₁) =>
           s₁.getStateLoop cd rest (updateEntry acc ch.name v)) := rfl

theorem getStateLoop_local_data (cd : ComponentDict) :
    ∀ (channels : List Channel) (s : Sensor) (acc : List (String × ℚ)),
      ((s.getStateLoop cd channels acc).2).local_data = s.local_data := by
  intro channels
  induction channels with
  | nil => intro s acc; rfl
  | cons ch rest ih =>
    intro s acc
    rcases h : s.get_joint cd ch.name with ⟨r, s₁⟩
    have hld : s₁.local_data = s.local_data := by
      have h₂ := get_joint_local_data s cd ch.name
      rw [h] at h₂
      exact h₂
    rw [getStateLoop_cons, h]
    rcases r with e | v
    · exact hld
    · exact (ih s₁ _).trans hld

theorem getStateLoop_ok_of_all (s : Sensor) (cd : ComponentDict)
    (act : ArmatureActuator) (hb : s.armature_actuator = some act) :
    ∀ (channels : List Channel) (acc : List (String × ℚ)),
      (∀ c ∈ channels, ∃ v, (s.get_joint cd c.name).1 = Except.ok v) →
      ∃ m, s.getStateLoop cd channels acc = (Except.ok m, s)
        ∧ (∀ k, (acc.lookup k).isSome → (m.lookup k).isSome)
        ∧ (∀ c ∈ channels, (m.lookup c.name).isSome) := by
  intro channels
  induction channels with
  | nil =>
    intro acc _
    exact ⟨acc, rfl, fun k h => h, fun c hc => absurd hc (List.not_mem_nil c)⟩
  | cons ch rest ih =>
    intro acc hall
    obtain ⟨v, hv⟩ := hall ch (List.mem_cons_self ch rest)
    have hpair : s.get_joint cd ch.name = (Except.ok v, s) :=
      Prod.ext_iff.mpr ⟨hv, get_joint_snd_of_bound s cd ch.name act hb⟩
    obtain ⟨m, hm, hpres, hmem⟩ := ih (updateEntry acc ch.name v)
      (fun c hc => hall c (List.mem_cons_of_mem ch hc))
    refine ⟨m, ?_, ?_, ?_⟩
    · rw [getStateLoop_cons, hpair]
      exact hm
    · intro k hk
      exact hpres k (lookup_updateEntry_isSome acc ch.name k v hk)
    · intro c hc
      rcases List.mem_cons.mp hc with rfl | hc₁
      · exact hpres c.name (by rw [lookup_updateEntry_self]; rfl)
      · exact hmem c hc₁

theorem getStateLoop_error_of_prefix (s : Sensor) (cd : ComponentDict)
    (act : ArmatureActuator) (hb : s.armature_actuator = some act) :
    ∀ (pre : List Channel) (acc : List (String × ℚ)) (ch : Channel)
      (post : List Channel) (e : Err),
      (∀ c ∈ pre, ∃ v, (s.get_joint cd c.name).1 = Except.ok v) →
      (s.get_joint cd ch.name).1 = Except.error e →
      (s.getStateLoop cd (pre ++ ch :: post) acc).1 = Except.error e := by
  intro pre
  induction pre with
  | nil =>
    intro acc ch post e _ he
    have hpair : s.get_joint cd ch.name = (Except.error e, s) :=
      Prod.ext_iff.mpr ⟨he, get_joint_snd_of_bound s cd ch.name act hb⟩
    rw [List.nil_append, getStateLoop_cons, hpair]
  | cons c₀ pre₁ ih =>
    intro acc ch post e hall he
    obtain ⟨v, hv⟩ := hall c₀ (List.mem_cons_self c₀ pre₁)
    have hpair : s.get_joint cd c₀.name = (Except.ok v, s) :=
      Prod.ext_iff.mpr ⟨hv, get_joint_snd_of_bound s cd c₀.name act hb⟩
    rw [List.cons_append, getStateLoop_cons, hpair]
    exact ih _ ch post e (fun c hc => hall c (List.mem_cons_of_mem c₀ hc)) he

/-
Claims.
-/

/-- C1: the claim says `default_action` (tick) writes into the published
mapping, for every joint, exactly the value `get_state`/`get_joint` would
return, and that on the spec's 2-joint chain one tick leaves the mapping at
A maps-to 0.7, B maps-to 1.5.  The code disagrees on any prismatic joint:
after one tick on that chain the mapping holds A maps-to 0.7 and B maps-to
0 (tick reads `joint_rotation`, never `head_pose`), while `get_state`
returns A maps-to 0.7, B maps-to 1.5 as the claim and the class docstring
describe.  This evaluates the embedded code at the failing input. -/
theorem C1_tick_disagrees_with_state :
    (sensorAB.default_action cdAB).2.local_data = [("A", 0.7), ("B", 0)]
    ∧ (sensorAB.get_state cdAB).1 = Except.ok [("A", 0.7), ("B", 1.5)]
    ∧ (sensorAB.default_action cdAB).2.local_data ≠ [("A", 0.7), ("B", 1.5)] := by
  refine ⟨rfl, rfl, ?_⟩
  intro h
  have h₀ : (sensorAB.default_action cdAB).2.local_data = [("A", 0.7), ("B", 0)] := rfl
  rw [h₀] at h
  simp only [List.cons.injEq, Prod.mk.injEq] at h
  norm_num at h

/-- C2: the claim says that while the DOF source is unbound and unbindable,
tick never raises and leaves every published entry unchanged.  The code
does leave `local_data` unchanged, but on a non-empty chain it dereferences
the still-None actuator (`self._armature_actuator._dofs`) and raises an
AttributeError instead of returning: this evaluates the embedded
`default_action` at such an input (registry empty), showing the raised
error and the unchanged mapping. -/
theorem C2_tick_raises_when_source_unbound :
    (sensorAB.default_action []).1 = Except.error (Err.attributeError "_dofs")
    ∧ (sensorAB.default_action []).2.local_data = sensorAB.local_data :=
  ⟨rfl, rfl⟩

/-- C3 counterexample: for the joint M whose mask has two true entries
(X and Y), the claim says `get_joint` fails with MultipleActiveAxes and
never silently returns a scalar; the code silently returns the value at
the first true axis (here X, value 1). -/
theorem C3_counterexample :
    (sensorM.get_joint [] "M").1 = Except.ok 1
    ∧ (Except.ok (1 : ℚ) : Except Err ℚ) ≠ Except.error Err.multipleActiveAxes :=
  ⟨rfl, fun h => Except.noConfusion h⟩

/-- C3 amended: for a joint whose DOF mask has zero true entries,
`get_joint` fails (with the StopIteration of the exhausted `next(...)`
generator, not a named NoActiveAxis error); for a mask with one or more
true entries — two-plus included — it does not fail: it silently returns
the joint's value at the first true axis. -/
theorem C3_amended_axis_errors (s : Sensor) (cd : ComponentDict) (j : String)
    (act : ArmatureActuator) (ch : Channel) (p : Bool) (mask : DofMask)
    (hb : s.armature_actuator = some act)
    (hj : act.getJointHelper j = .ok (ch, p))
    (hm : act.find_dof ch = .ok mask) :
    (trueIndices mask = [] →
        (s.get_joint cd j).1 = Except.error Err.stopIteration)
    ∧ (∀ i rest, trueIndices mask = i :: rest →
        (s.get_joint cd j).1 =
          Except.ok (if p then ch.head_pose.get i else ch.joint_rotation.get i)) := by
  have hfst := get_joint_fst_of_bound s cd j act ch p mask hb hj hm
  constructor
  · intro h₀
    rw [hfst, firstTrueIndex_eq_head, h₀]
    rfl
  · intro i rest hir
    rw [hfst, firstTrueIndex_eq_head, hir]
    rfl

/-- C3 witness: the zero-axes branch of the amended claim at the concrete
joint Z whose mask is all-false. -/
theorem C3_witness :
    (sensorZ.get_joint [] "Z").1 = Except.error Err.stopIteration :=
  (C3_amended_axis_errors sensorZ [] "Z" actZ chanZ false
    ⟨false, false, false⟩ rfl rfl rfl).1 rfl

/-- C4 counterexample: with the DOF source unbound and absent from the
registry, the claim says `get_joint` fails with the explicit NotReady
error; the code fails by calling a method on the None actuator, an
AttributeError, which is not NotReady. -/
theorem C4_counterexample :
    (sensorAB.get_joint [] "A").1 = Except.error (Err.attributeError "_get_joint")
    ∧ Err.attributeError "_get_joint" ≠ Err.notReady :=
  ⟨rfl, fun h => Err.noConfusion h⟩

/-- C4 amended: while the DOF source is unbound, `get_joint` re-attempts the
binding on every call; if the collaborator is still not registered the call
fails with an AttributeError from dereferencing the None source (not a named
NotReady error) and the sensor is left unchanged, and once the collaborator
is registered under the armature's name the same call binds it and succeeds
without reinitializing the sensor. -/
theorem C4_amended_rebind_every_call (s : Sensor) (cd : ComponentDict)
    (j : String) (arm : Armature)
    (ha : s.armature = some arm)
    (hu : s.armature_actuator = none) :
    (cd.lookup arm.name = none →
        (s.get_joint cd j).1 = Except.error (Err.attributeError "_get_joint")
        ∧ (s.get_joint cd j).2 = s)
    ∧ (∀ act ch p mask i,
        cd.lookup arm.name = some act →
        act.getJointHelper j = .ok (ch, p) →
        act.find_dof ch = .ok mask →
        firstTrueIndex mask = some i →
        (s.get_joint cd j).2.armature_actuator = some act
        ∧ (s.get_joint cd j).1 =
            Except.ok (if p then ch.head_pose.get i else ch.joint_rotation.get i)) := by
  constructor
  · intro hl
    have h₁ : s.get_armature_actuator cd = s := by
      simp only [Sensor.get_armature_actuator, ha, hl]
    have key : s.get_joint cd j =
        (Except.error (Err.attributeError "_get_joint"), s) := by
      simp only [Sensor.get_joint, hu, Option.isNone_none, if_true, h₁]
    exact ⟨by rw [key], by rw [key]⟩
  · intro act ch p mask i hl hj hm hi
    have h₁ : s.get_armature_actuator cd =
        { s with armature_actuator := some act } := by
      simp only [Sensor.get_armature_actuator, ha, hl]
    have key : s.get_joint cd j =
        (Except.ok (if p then ch.head_pose.get i else ch.joint_rotation.get i),
         { s with armature_actuator := some act }) := by
      simp only [Sensor.get_joint, hu, Option.isNone_none, if_true, h₁, hj, hm, hi]
      cases p <;> rfl
    exact ⟨by rw [key], by rw [key]⟩

/-- C4 witness: the late-binding branch of the amended claim at the concrete
2-joint scenario: with the actuator registered, the formerly-unbound sensor's
`get_joint` binds it and returns joint A's value in the same call. -/
theorem C4_witness :
    (sensorAB.get_joint cdAB "A").2.armature_actuator = some actAB
    ∧ (sensorAB.get_joint cdAB "A").1 = Except.ok 0.7 := by
  have h := (C4_amended_rebind_every_call sensorAB cdAB "A" armAB rfl rfl).2
    actAB chanA false ⟨false, true, false⟩ 1 rfl rfl rfl rfl
  exact ⟨h.1, h.2⟩

/-- C5 counterexample: on a sensor whose construction found no chain, the
claim says every public operation returns an explicit "not attached to a
chain" error; the code instead raises an AttributeError from iterating the
channels of None, which is not the NotAttached error. -/
theorem C5_counterexample :
    (sensorNoArm.get_state []).1 = Except.error (Err.attributeError "channels")
    ∧ Err.attributeError "channels" ≠ Err.notAttached :=
  ⟨rfl, fun h => Err.noConfusion h⟩

/-- C5 amended: after a failed chain resolution the sensor is permanently
disabled in the sense that every public operation (get_joints, get_state,
get_joints_length, get_joint) fails fast — but with the AttributeError of
dereferencing the absent armature/actuator, not an explicit "not attached
to a chain" error (that message is only logged once at construction). -/
theorem C5_amended_fail_fast (s : Sensor) (cd : ComponentDict) (j : String)
    (ha : s.armature = none) (hu : s.armature_actuator = none) :
    (s.get_joints).1 = Except.error (Err.attributeError "channels")
    ∧ (s.get_state cd).1 = Except.error (Err.attributeError "channels")
    ∧ (s.get_joints_length).1 = Except.error (Err.attributeError "channels")
    ∧ (s.get_joint cd j).1 = Except.error (Err.attributeError "_get_joint") := by
  have h₁ : s.get_armature_actuator cd = s := by
    simp only [Sensor.get_armature_actuator, ha]
  refine ⟨?_, ?_, ?_, ?_⟩
  · simp [Sensor.get_joints, ha]
  · simp [Sensor.get_state, ha]
  · simp [Sensor.get_joints_length, ha]
  · simp [Sensor.get_joint, hu, h₁]

/-- C5 witness: the amended claim at the concrete sensor built on a body
with no armature anywhere up its parent chain. -/
theorem C5_witness :
    (sensorNoArm.get_joints).1 = Except.error (Err.attributeError "channels")
    ∧ (sensorNoArm.get_state []).1 = Except.error (Err.attributeError "channels")
    ∧ (sensorNoArm.get_joints_length).1 = Except.error (Err.attributeError "channels")
    ∧ (sensorNoArm.get_joint [] "A").1 = Except.error (Err.attributeError "_get_joint") :=
  C5_amended_fail_fast sensorNoArm [] "A" rfl rfl

/-- C6: for every joint whose DOF mask has exactly one true entry, at index
i, `get_joint` returns the i-th component of the joint's head position if
the joint is prismatic and the i-th component of its rotation vector if it
is rotational, the value passed through unmodified. -/
theorem C6_single_axis_value (s : Sensor) (cd : ComponentDict) (j : String)
    (act : ArmatureActuator) (ch : Channel) (mask : DofMask) (i : Nat)
    (hb : s.armature_actuator = some act)
    (hch : act.armature.channels.find? (fun c => c.name == j) = some ch)
    (hm : act.find_dof ch = .ok mask)
    (hone : trueIndices mask = [i]) :
    (s.get_joint cd j).1 =
      Except.ok (match ch.kind with
        | JointKind.prismatic => ch.head_pose.get i
        | JointKind.rotational => ch.joint_rotation.get i) := by
  have hj : act.getJointHelper j = .ok (ch, ch.kind == .prismatic) := by
    unfold ArmatureActuator.getJointHelper
    rw [hch]
  have hfst := get_joint_fst_of_bound s cd j act ch (ch.kind == .prismatic)
    mask hb hj hm
  rw [hfst, firstTrueIndex_eq_head, hone]
  cases hk : ch.kind <;> simp [hk]

/-- C6 witness: the spec's point example — a prismatic joint with mask
[false, true, false] and head position (1.0, 2.5, -3.0) yields 2.5. -/
theorem C6_witness :
    (sensorP.get_joint [] "P").1 = Except.ok 2.5 := by
  have h := C6_single_axis_value sensorP [] "P" actP chanP
    ⟨false, true, false⟩ 1 rfl rfl rfl rfl
  exact h

/-- C7: `get_state` resolves every joint of the chain: when every joint
resolves, it returns a complete mapping holding an entry for every channel
name; and whenever some joint fails while all the joints before it in chain
order succeed, the whole call fails with exactly that first error — no
partial mapping is ever returned. -/
theorem C7_state_complete_or_first_error (s : Sensor) (cd : ComponentDict)
    (arm : Armature) (act : ArmatureActuator)
    (ha : s.armature = some arm) (hb : s.armature_actuator = some act) :
    ((∀ c ∈ arm.channels, ∃ v, (s.get_joint cd c.name).1 = Except.ok v) →
      ∃ m, (s.get_state cd).1 = Except.ok m
        ∧ ∀ c ∈ arm.channels, (m.lookup c.name).isSome)
    ∧ (∀ pre ch post e, arm.channels = pre ++ ch :: post →
        (∀ c ∈ pre, ∃ v, (s.get_joint cd c.name).1 = Except.ok v) →
        (s.get_joint cd ch.name).1 = Except.error e →
        (s.get_state cd).1 = Except.error e) := by
  have hstate : s.get_state cd = s.getStateLoop cd arm.channels [] := by
    simp only [Sensor.get_state, ha]
  constructor
  · intro hall
    obtain ⟨m, hm, _, hmem⟩ :=
      getStateLoop_ok_of_all s cd act hb arm.channels [] hall
    exact ⟨m, by rw [hstate, hm], hmem⟩
  · intro pre ch post e hsplit hpre he
    rw [hstate, hsplit]
    exact getStateLoop_error_of_prefix s cd act hb pre [] ch post e hpre he

/-- C7 witness: on the chain whose second joint has no DOF declaration,
`get_state` fails with the first encountered error (the KeyError for W),
although joint A resolves fine. -/
theorem C7_witness :
    (sensorW.get_state []).1 = Except.error (Err.keyError "W") :=
  (C7_state_complete_or_first_error sensorW [] armW actW rfl rfl).2
    [chanA] chanW [] (Err.keyError "W") rfl
    (fun c hc => by
      have hc₁ : c = chanA := by simpa using hc
      subst hc₁
      exact ⟨0.7, rfl⟩)
    rfl

/-- C8: `_get_armature` terminates on every body whose parent chain is
finite and acyclic (every BObj, by construction of the type — the function
is total and structurally recursive) and returns exactly the nearest
ancestor of the body, the body itself included, exposing a joint list, or
None when the upward walk reaches the top without finding one; being a pure
function of the object, it has no side effects. -/
theorem C8_resolve_chain_first_ancestor (o : BObj) :
    get_armature o =
      (BObj.ancestorList o).find? (fun b => b.channels.isSome) := by
  match o with
  | .mk n c none =>
    cases hc : c.isSome <;>
      simp [get_armature, BObj.ancestorList, List.find?, BObj.channels, hc]
  | .mk n c (some p) =>
    have ih := C8_resolve_chain_first_ancestor p
    cases hc : c.isSome <;>
      simp [get_armature, BObj.ancestorList, List.find?, BObj.channels, hc, ih]

/-- C9: the published mapping `local_data` is never mutated by the query
operations: whatever their outcome, `get_joint` and `get_state` return a
sensor with `local_data` unchanged, and `get_joints` and
`get_joints_length` leave the whole sensor untouched. -/
theorem C9_queries_preserve_local_data (s : Sensor) (cd : ComponentDict)
    (j : String) :
    (s.get_joint cd j).2.local_data = s.local_data
    ∧ (s.get_state cd).2.local_data = s.local_data
    ∧ (s.get_joints).2 = s
    ∧ (s.get_joints_length).2 = s := by
  refine ⟨get_joint_local_data s cd j, ?_, ?_, ?_⟩
  · unfold Sensor.get_state
    split
    · rfl
    · exact getStateLoop_local_data cd _ s []
  · unfold Sensor.get_joints
    split <;> rfl
  · unfold Sensor.get_joints_length
    split <;> rfl

/-- C10: when construction finds no armature, `__init__` returns before the
population loop, so the published mapping keeps the empty state the base
Sensor construction gave it — no per-joint entries at 0.0. -/
theorem C10_unattached_init_leaves_empty (obj : BObj)
    (h : get_armature obj = none) :
    (ArmaturePose.init obj).local_data = [] := by
  simp only [ArmaturePose.init, h]

/-- C10 witness: the concrete body with no armature up its parent chain. -/
theorem C10_witness :
    get_armature objNoArm = none
    ∧ (ArmaturePose.init objNoArm).local_data = [] :=
  ⟨rfl, C10_unattached_init_leaves_empty objNoArm rfl⟩


end Morse
